import Mathlib

/-!
Shallow embedding of the historical-nanochat data-processing pipeline
(`data/process/contamination_check.py` and `data/process/shard_packager.py`).

Strings are modelled as `List Char`; Python floats used for the detector's
confidence score are modelled as exact rationals (every comparison settled
below is robust to the tiny float rounding of 0.1/0.2/0.3 increments);
Python ints are modelled as `Nat` (all values involved are non-negative).
Writing a parquet shard to disk is modelled as appending the shard's
contents to a `written` trace; writing the statistics JSON is modelled by
returning the statistics record.
-/

set_option maxRecDepth 100000
set_option linter.unusedVariables false

abbrev Str := List Char

def sl (s : String) : Str := s.toList

/-- ASCII lower-casing of one character (models `str.lower` on the ASCII
range actually exercised by the pipeline's literals). -/
def asciiLower (c : Char) : Char :=
  if 'A' ≤ c ∧ c ≤ 'Z' then Char.ofNat (c.toNat + 32) else c

/-- ASCII upper-casing of one character (models `str.upper`). -/
def asciiUpper (c : Char) : Char :=
  if 'a' ≤ c ∧ c ≤ 'z' then Char.ofNat (c.toNat - 32) else c

def lowerStr (s : Str) : Str := s.map asciiLower

def upperStr (s : Str) : Str := s.map asciiUpper

/-- `startsWithL pat s` holds when `pat` is a prefix of `s`. -/
def startsWithL : Str → Str → Bool
  | [], _ => true
  | _ :: _, [] => false
  | p :: ps, c :: cs => p == c && startsWithL ps cs

/-- First index at or after offset `i` where `pat` occurs in the remaining
text; models Python `str.find` (which returns -1, modelled as `none`). -/
def findSubAux (pat : Str) : Str → Nat → Option Nat
  | [], i => if startsWithL pat [] then some i else none
  | c :: rest, i =>
    if startsWithL pat (c :: rest) then some i else findSubAux pat rest (i + 1)

def findSub (s pat : Str) : Option Nat := findSubAux pat s 0

/-- Models Python's `pat in s` substring test. -/
def containsSub (s pat : Str) : Bool := (findSub s pat).isSome

/-- Models Python's `s.find(c, start)`. -/
def findCharFrom (s : Str) (c : Char) (start : Nat) : Option Nat :=
  match findSubAux [c] (s.drop start) 0 with
  | some k => some (start + k)
  | none => none

/-- The whitespace characters stripped by Python's `str.strip` (ASCII part;
the corpus markers involved are ASCII). -/
def pyIsSpace (c : Char) : Bool :=
  c == ' ' || c == '\t' || c == '\n' || c == '\r' ||
  c == Char.ofNat 11 || c == Char.ofNat 12

def trimL (s : Str) : Str := s.dropWhile pyIsSpace

def trimR (s : Str) : Str := (s.reverse.dropWhile pyIsSpace).reverse

/-- Models Python `str.strip()`: whitespace removed from both ends. -/
def pyStrip (s : Str) : Str := trimR (trimL s)

def digitChar (n : Nat) : Char := Char.ofNat (48 + n)

def natToStrAux : Nat → Nat → Str
  | 0, _ => []
  | fuel + 1, n =>
    if n < 10 then [digitChar n]
    else natToStrAux fuel (n / 10) ++ [digitChar (n % 10)]

/-- Decimal rendering of a natural number (models `f"{year}"`). -/
def natToStr (n : Nat) : Str := natToStrAux (n + 1) n

/-- Rational addition written through `mkRat` so that it evaluates in the
kernel (models the float additions of the detector exactly: all increments
are decimal and the settled comparisons are robust to float rounding). -/
def qadd (a b : ℚ) : ℚ := mkRat (a.num * b.den + b.num * a.den) (a.den * b.den)

/-- Models Python `min` on the rational stand-ins for floats. -/
def qmin (a b : ℚ) : ℚ := if a ≤ b then a else b

/-!
## Temporal lexicon (`contamination_check.py`, ANACHRONISM_* dictionaries)

Each dictionary maps a threshold year to a set of terms, modelled as an
association list in source order.  The Python source contains several
conditional expressions of the form `"term" if "w" in "context" else ""`;
`"w" in "context"` is a substring test against the literal string
`"context"`, which is false for every such `w` except `"daguerreotype"
not in "context"` (which is true), so those entries evaluate to `""`
(kept below) except `"photograph"` (kept as the term).  Python sets drop
duplicates; the query below deduplicates, so a list is a faithful model.
-/

def anachronismEntities : List (Nat × List Str) := [
  (1913, [sl "world war i", sl "world war 1", sl "the great war", sl "wwi",
          sl "world war ii", sl "world war 2", sl "wwii", sl "second world war",
          sl "russian revolution", sl "bolshevik revolution",
          sl "treaty of versailles", sl "league of nations",
          sl "great depression", sl "stock market crash 1929",
          sl "pearl harbor", sl "d-day", sl "hiroshima", sl "nagasaki",
          sl "holocaust", sl "concentration camp", sl "auschwitz",
          sl "cold war", sl "korean war", sl "vietnam war",
          sl "cuban missile crisis", sl "bay of pigs",
          sl "moon landing", sl "apollo 11"]),
  (1900, [sl "wright brothers", sl "kitty hawk", sl "first flight",
          sl "world war", sl "wwi", sl "wwii",
          sl "russian revolution", sl "bolshevik",
          sl "relativity", sl "quantum mechanics",
          sl "radio broadcast", sl "television"]),
  (1850, [sl "",  -- "civil war" if "american" in "context" else "" -> ""
          sl "darwin's origin of species",
          sl "telephone", sl "electric light", sl "light bulb",
          sl "automobile", sl "motor car", sl "internal combustion",
          sl "airplane", sl "aeroplane",
          sl "world war", sl "wwi", sl "wwii"])]

def anachronismPeople : List (Nat × List Str) := [
  (1913, [sl "adolf hitler", sl "hitler",
          sl "benito mussolini", sl "mussolini",
          sl "joseph stalin", sl "stalin",
          sl "franklin roosevelt", sl "fdr",
          sl "",  -- "winston churchill" if "prime minister" in "context" else ""
          sl "",  -- "albert einstein" if "relativity" in "context" else ""
          sl "mao zedong", sl "mao tse-tung",
          sl "fidel castro",
          sl "john f kennedy", sl "jfk",
          sl "martin luther king",
          sl "nelson mandela"]),
  (1900, [sl "wright brothers",
          sl "albert einstein",
          sl ""])]  -- "marie curie" if "radioactivity" in "context" else ""

def anachronismTechnology : List (Nat × List Str) := [
  (1913, [sl "television", sl "tv set",
          sl "radio broadcast", sl "wireless radio",
          sl "computer", sl "computing machine",
          sl "atomic bomb", sl "nuclear weapon", sl "hydrogen bomb",
          sl "jet engine", sl "jet aircraft",
          sl "helicopter",
          sl "penicillin", sl "antibiotic",
          sl "plastic",
          sl "nylon"]),
  (1900, [sl "airplane", sl "aeroplane", sl "aircraft",
          sl "radio", sl "wireless telegraphy",
          sl "automobile", sl "motor car",
          sl "moving picture", sl "cinema"]),
  (1850, [sl "telephone",
          sl "phonograph", sl "gramophone",
          sl "electric light", sl "incandescent",
          sl "typewriter",
          sl "photograph"])]  -- "photograph" if "daguerreotype" not in "context" else ""

def anachronismConcepts : List (Nat × List Str) := [
  (1913, [sl "nazi", sl "nazism", sl "fascism", sl "fascist",
          sl "soviet union", sl "ussr", sl "soviet",
          sl "communist party",
          sl "united nations",
          sl "",  -- "human rights" if "declaration" in "context" else ""
          sl "genocide",
          sl "existentialism",
          sl ""]),  -- "psychoanalysis" if "widespread" in "context" else ""
  (1900, [sl "radioactivity", sl "radiation",
          sl "x-ray",
          sl "electron",
          sl "relativity",
          sl "quantum"])]

def allAnachronismTables : List (Nat × List Str) :=
  anachronismEntities ++ anachronismPeople ++ anachronismTechnology ++ anachronismConcepts

/-- `get_all_anachronisms` from the source: the union over all four
category tables of the lower-cased terms of every entry whose year is
`>= cutoff_year`, with empty placeholder strings skipped.  The Python
result is a `set`; its unspecified iteration order is modelled by a
deduplicated list (every claim settled below is insensitive to the
order). -/
def get_all_anachronisms (cutoff_year : Nat) : List Str :=
  ((((allAnachronismTables.filter (fun p => cutoff_year ≤ p.1)).flatMap
      (fun p => p.2.filter (fun term => term ≠ []))).map lowerStr)).dedup

/-!
## Modern-reference patterns (`check_for_modern_references`)

The four `re` patterns of the source are modelled as explicit character
scanners with Python's `\w`, `\d` and `\b` semantics (ASCII `\w`; a `\b`
next to a digit holds iff the neighbouring character is absent or a
non-word character).  `re.finditer` scans left to right and resumes after
each (fixed-width) match.
-/

def isDigitChar (c : Char) : Bool := '0' ≤ c && c ≤ '9'

def isWordChar (c : Char) : Bool :=
  ('a' ≤ c && c ≤ 'z') || ('A' ≤ c && c ≤ 'Z') || isDigitChar c || c == '_'

def boundaryBefore : Option Char → Bool
  | none => true
  | some c => !isWordChar c

def boundaryAfter : Str → Bool
  | [] => true
  | c :: _ => !isWordChar c

def charDigit (c : Char) : Nat := c.toNat - 48

/-- Is `d1 d2` the start of `19\d{2}` or `20\d{2}`? -/
def yearDecade (d1 d2 : Char) : Bool :=
  (d1 == '1' && d2 == '9') || (d1 == '2' && d2 == '0')

/-- All years matched by `re.finditer(r'\b(19\d{2}|20\d{2})\b', text)`, in
order of occurrence (`prev` is the character just before the scan point). -/
def yearScanAux (prev : Option Char) : Str → List Nat
  | d1 :: d2 :: d3 :: d4 :: rest =>
    if boundaryBefore prev && yearDecade d1 d2 && isDigitChar d3 &&
        isDigitChar d4 && boundaryAfter rest then
      (charDigit d1 * 1000 + charDigit d2 * 100 + charDigit d3 * 10 + charDigit d4)
        :: yearScanAux (some d4) rest
    else yearScanAux (some d1) (d2 :: d3 :: d4 :: rest)
  | c :: rest => yearScanAux (some c) rest
  | [] => []

/-- `(?:19|20)\d{2}\b`, the tail of the modern-date pattern. -/
def dateTail : Str → Bool
  | a :: b :: c :: d :: rest =>
    yearDecade a b && isDigitChar c && isDigitChar d && boundaryAfter rest
  | _ => false

/-- `\d{1,2}/(?:19|20)\d{2}\b` matching at the start of the string. -/
def dateSecondGroup : Str → Bool
  | a :: '/' :: rest => isDigitChar a && dateTail rest
  | a :: b :: '/' :: rest => isDigitChar a && isDigitChar b && dateTail rest
  | _ => false

/-- `\d{1,2}/\d{1,2}/(?:19|20)\d{2}\b` matching at the start. -/
def dateAt : Str → Bool
  | a :: '/' :: rest => isDigitChar a && dateSecondGroup rest
  | a :: b :: '/' :: rest => isDigitChar a && isDigitChar b && dateSecondGroup rest
  | _ => false

/-- `re.search(r'\b\d{1,2}/\d{1,2}/(?:19|20)\d{2}\b', text)` as a Bool. -/
def dateScan (prev : Option Char) : Str → Bool
  | [] => false
  | c :: rest => (boundaryBefore prev && dateAt (c :: rest)) || dateScan (some c) rest

/-- `\w+\.\w+` continuing after at least one word character (`\w` and `.`
are disjoint, so the regex backtracking is deterministic here). -/
def wordDotWordTail : Str → Bool
  | '.' :: d :: _ => isWordChar d
  | c :: rest => isWordChar c && wordDotWordTail rest
  | _ => false

/-- `\w+\.\w+` matching at the start of the string. -/
def wordDotWord : Str → Bool
  | c :: rest => isWordChar c && wordDotWordTail rest
  | [] => false

/-- Scan for `@\w+\.\w+` anywhere. -/
def emailScan : Str → Bool
  | [] => false
  | '@' :: rest => wordDotWord rest || emailScan rest
  | _ :: rest => emailScan rest

/-- `re.search(r'https?://|www\.|\.com|\.org|@\w+\.\w+', text_lower)`. -/
def urlFound (textLower : Str) : Bool :=
  containsSub textLower (sl "http://") || containsSub textLower (sl "https://") ||
  containsSub textLower (sl "www.") || containsSub textLower (sl ".com") ||
  containsSub textLower (sl ".org") || emailScan textLower

/-- `,\d{3}` at the start: the first (and for a search, decisive) group of
`(,\d{3})+`. -/
def commaGroup : Str → Bool
  | ',' :: a :: b :: c :: _ => isDigitChar a && isDigitChar b && isDigitChar c
  | _ => false

/-- `\d{1,3}(,\d{3})+` at the start (all backtracking alternatives of the
greedy `\d{1,3}`). -/
def dollarDigits : Str → Bool
  | a :: b :: c :: rest =>
    (isDigitChar a && isDigitChar b && isDigitChar c && commaGroup rest) ||
    (isDigitChar a && isDigitChar b && commaGroup (c :: rest)) ||
    (isDigitChar a && commaGroup (b :: c :: rest))
  | a :: b :: rest =>
    (isDigitChar a && isDigitChar b && commaGroup rest) ||
    (isDigitChar a && commaGroup (b :: rest))
  | a :: rest => isDigitChar a && commaGroup rest
  | [] => false

/-- `re.search(r'\$\d{1,3}(,\d{3})+', text)` as a Bool. -/
def currencyScan : Str → Bool
  | [] => false
  | '$' :: rest => dollarDigits rest || currencyScan rest
  | _ :: rest => currencyScan rest

def yearReason (year : Nat) : Str := sl "Year reference: " ++ natToStr year

def dateReasonStr : Str := sl "Modern date format"
def urlReasonStr : Str := sl "URL or email address"
def currencyReasonStr : Str := sl "Modern currency format"

/-- `check_for_modern_references(text, cutoff_year)`: the list of
suspicious-pattern reason strings, in source order.  Note that the year
pattern appends one reason per occurrence, while the other three
categories each contribute at most one reason. -/
def check_for_modern_references (text : Str) (cutoff_year : Nat) : List Str :=
  let text_lower := lowerStr text
  (((yearScanAux none text).filter (fun year => cutoff_year < year)).map yearReason) ++
  (if dateScan none text then [dateReasonStr] else []) ++
  (if urlFound text_lower then [urlReasonStr] else []) ++
  (if currencyScan text then [currencyReasonStr] else [])

/-!
## `check_contamination`
-/

structure ContaminationResult where
  is_contaminated : Bool
  confidence : ℚ
  reasons : List Str
  matched_terms : List Str
deriving DecidableEq

def termReason (term : Str) : Str :=
  sl "Anachronistic term '" ++ term ++ sl "' found"

/-- The per-term loop of `check_contamination`: for every anachronistic
term occurring as a substring of the lowered text, record the term and a
reason and add 0.2 to the confidence, capped at 1.0.  (The source also
slices a `context_window`-sized context around the first occurrence and
never uses it; that dead slice is omitted.)  The accumulating parameters
mirror the source's `reasons`, `matched_terms` and `confidence`. -/
def termLoop (textLower : Str) : List Str → List Str → List Str → ℚ →
    List Str × List Str × ℚ
  | [], reasons, matched, conf => (reasons, matched, conf)
  | term :: rest, reasons, matched, conf =>
    if containsSub textLower term then
      termLoop textLower rest (reasons ++ [termReason term]) (matched ++ [term])
        (qmin 1 (qadd conf (mkRat 2 10)))
    else termLoop textLower rest reasons matched conf

/-- One step of the modern-reference loop: append the reason and add 0.3,
capped at 1.0. -/
def modernStep (rc : List Str × ℚ) (ref : Str) : List Str × ℚ :=
  (rc.1 ++ [ref], qmin 1 (qadd rc.2 (mkRat 3 10)))

def introMarkers : List Str :=
  [sl "introduction by", sl "edited by", sl "annotated by",
   sl "foreword by", sl "notes by"]

def annotReason (marker : Str) : Str :=
  sl "Possible modern annotation: '" ++ marker ++ sl "'"

/-- One step of the editorial-marker loop: if the marker occurs in the
first 5000 lowered characters, append the reason and add 0.1, capped. -/
def annotStep (textLower5000 : Str) (rc : List Str × ℚ) (marker : Str) :
    List Str × ℚ :=
  if containsSub textLower5000 marker then
    (rc.1 ++ [annotReason marker], qmin 1 (qadd rc.2 (mkRat 1 10)))
  else rc

/-- `check_contamination(text, cutoff_year, context_window, threshold)`.
`context_window` is accepted and (like in the source) never influences the
result. -/
def check_contamination (text : Str) (cutoff_year : Nat)
    (context_window : Nat) (threshold : ℚ) : ContaminationResult :=
  let text_lower := lowerStr text
  let anachronisms := get_all_anachronisms cutoff_year
  let tmc := termLoop text_lower anachronisms [] [] 0
  let modern_refs := check_for_modern_references text cutoff_year
  let rc2 := modern_refs.foldl modernStep (tmc.1, tmc.2.2)
  let rc3 :=
    if containsSub (text_lower.take 2000) (sl "project gutenberg") then
      introMarkers.foldl (annotStep (text_lower.take 5000)) rc2
    else rc2
  { is_contaminated := decide (threshold ≤ rc3.2)
    confidence := rc3.2
    reasons := rc3.1
    matched_terms := tmc.2.1 }

-- The module's own `__main__` scenarios, re-checked on the embedding.

/-!
## `clean_gutenberg_headers`
-/

def headerEndMarkers : List Str :=
  [sl "*** START OF THIS PROJECT GUTENBERG",
   sl "*** START OF THE PROJECT GUTENBERG",
   sl "*END*THE SMALL PRINT",
   sl "END OF THE PROJECT GUTENBERG HEADER"]

def footerStartMarkers : List Str :=
  [sl "*** END OF THIS PROJECT GUTENBERG",
   sl "*** END OF THE PROJECT GUTENBERG",
   sl "End of Project Gutenberg",
   sl "End of the Project Gutenberg"]

/-- The header loop: for the first marker found (case-insensitively), drop
everything up to and including the end of the marker's line; if the marker
has no following newline the text is left unchanged; either way the loop
breaks at the first found marker. -/
def cutHeader (text : Str) : List Str → Str
  | [] => text
  | marker :: rest =>
    match findSub (upperStr text) (upperStr marker) with
    | some idx =>
      match findCharFrom text '\n' idx with
      | some endIdx => text.drop (endIdx + 1)
      | none => text
    | none => cutHeader text rest

/-- The footer loop: truncate at the first marker found (case-insensitively),
breaking at the first found marker. -/
def cutFooter (text : Str) : List Str → Str
  | [] => text
  | marker :: rest =>
    match findSub (upperStr text) (upperStr marker) with
    | some idx => text.take idx
    | none => cutFooter text rest

/-- `clean_gutenberg_headers(text)`: strip the Gutenberg header, then the
footer, then surrounding whitespace. -/
def clean_gutenberg_headers (text : Str) : Str :=
  pyStrip (cutFooter (cutHeader text headerEndMarkers) footerStartMarkers)

/-!
## `iter_jsonl_texts` (shard_packager.py)

Input lines are modelled after JSON parsing: `none` is a blank or
unparseable line (skipped, like the `json.JSONDecodeError` handler); a
record's `text` field is `none` when the key is missing (`record.get`
then yields the empty default).  The per-file structure and the missing-
file warning only flatten/skip lines, so a single list of parsed lines
models the concatenated input files.
-/

structure InputRecord where
  text : Option Str
  source : Str
deriving DecidableEq

/-- The body of the `for line in f` loop for one parsed line: `none` means
the line is skipped, `some t` that `t` is yielded. -/
def processLine (cutoff_year : Nat) (clean_headers check_contam : Bool)
    (line : Option InputRecord) : Option Str :=
  match line with
  | none => none
  | some record =>
    let text := record.text.getD []
    if text = [] ∨ text.length < 100 then none
    else
      let text :=
        if clean_headers && record.source == sl "gutenberg" then
          clean_gutenberg_headers text
        else text
      if check_contam &&
          (check_contamination text cutoff_year 100 (mkRat 3 10)).is_contaminated then
        none
      else some text

/-- `iter_jsonl_texts`: the stream of clean texts, in input order. -/
def iter_jsonl_texts (lines : List (Option InputRecord)) (cutoff_year : Nat)
    (clean_headers check_contam : Bool) : List Str :=
  lines.filterMap (processLine cutoff_year clean_headers check_contam)

/-!
## `package_shards`

`random.seed` / `random.shuffle` come from the Python standard library
(an external collaborator): the generator is modelled abstractly as a
state type `σ` with a step function `step g bound = (value, g')` standing
for `random._randbelow(bound)` (the returned value is reduced mod the
bound, which is the generator's contract), and `seedFn` standing for
`random.seed`.  `random.shuffle` is the Fisher-Yates loop
`for i in reversed(range(1, n)): j = randbelow(i + 1); swap x[i], x[j]`.
The ambient generator state before `random.seed(shuffle_seed)` runs is an
explicit `_g0` argument, which the call to `seedFn` discards.
-/

def swapNth (xs : List Str) (i j : Nat) : List Str :=
  match xs.get? i, xs.get? j with
  | some a, some b => (xs.set i b).set j a
  | _, _ => xs

/-- Fisher-Yates as in `random.shuffle`; the counter is the current index
`i`, running from `n - 1` down to `1`. -/
def fisherYates {σ : Type} (step : σ → Nat → Nat × σ) : Nat → List Str → σ → List Str
  | 0, xs, _ => xs
  | i + 1, xs, g =>
    let p := step g (i + 2)
    fisherYates step i (swapNth xs (i + 1) (p.1 % (i + 2))) p.2

structure RunStats where
  total_docs : Nat
  total_chars : Nat
  num_shards : Nat
  rejected_contamination : Nat
deriving DecidableEq

structure ShardFile where
  index : Nat
  docs : List Str
  chars : Nat
deriving DecidableEq

structure PackState where
  shardDocs : List Str
  shardChars : Nat
  shardIndex : Nat
  written : List ShardFile
  stats : RunStats
deriving DecidableEq

def initState : PackState := ⟨[], 0, 0, [], ⟨0, 0, 0, 0⟩⟩

/-- `if max_shards and shard_index >= max_shards: break` — note Python's
truthiness: `max_shards = 0` (like `None`) never triggers the break. -/
def stopPacking (maxShards : Option Nat) (shardIndex : Nat) : Bool :=
  match maxShards with
  | none => false
  | some m => !(m == 0) && decide (m ≤ shardIndex)

/-- The accumulation loop of `package_shards` over the shuffled texts:
append each document, update running statistics, and seal a shard exactly
when the buffer has both reached `chars_per_shard` and a document count
that is a multiple of `row_group_size`. -/
def packLoop (cps rgs : Nat) (maxShards : Option Nat) :
    List Str → PackState → PackState
  | [], st => st
  | text :: rest, st =>
    if stopPacking maxShards st.shardIndex then st
    else
      let docs := st.shardDocs ++ [text]
      let chars := st.shardChars + text.length
      let stats1 := { st.stats with
        total_docs := st.stats.total_docs + 1
        total_chars := st.stats.total_chars + text.length }
      if cps ≤ chars ∧ docs.length % rgs = 0 then
        packLoop cps rgs maxShards rest
          { shardDocs := []
            shardChars := 0
            shardIndex := st.shardIndex + 1
            written := st.written ++ [⟨st.shardIndex, docs, chars⟩]
            stats := { stats1 with num_shards := stats1.num_shards + 1 } }
      else
        packLoop cps rgs maxShards rest
          { st with shardDocs := docs, shardChars := chars, stats := stats1 }

/-- `if shard_docs and (max_shards is None or shard_index < max_shards)`:
write the remaining buffer as a final, possibly undersized shard. -/
def flushAllowed (maxShards : Option Nat) (shardIndex : Nat) : Bool :=
  match maxShards with
  | none => true
  | some m => decide (shardIndex < m)

def finalFlush (maxShards : Option Nat) (st : PackState) : PackState :=
  if !st.shardDocs.isEmpty && flushAllowed maxShards st.shardIndex then
    { st with
      written := st.written ++ [⟨st.shardIndex, st.shardDocs, st.shardChars⟩]
      stats := { st.stats with num_shards := st.stats.num_shards + 1 } }
  else st

/-- `package_shards(input_files, ..., cutoff_year, chars_per_shard,
row_group_size, shuffle_seed, max_shards)`: collect the filtered texts,
shuffle with the seeded generator, pack greedily, flush the remainder and
return the final state (written shards and statistics; the source also
serializes `stats` to `stats.json`, modelled by the returned record).
Note `rejected_contamination` is initialized to 0 and never updated by the
source. -/
def package_shards {σ : Type} (step : σ → Nat → Nat × σ) (seedFn : Nat → σ)
    (_g0 : σ) (lines : List (Option InputRecord)) (cutoff_year : Nat)
    (cps rgs shuffle_seed : Nat) (maxShards : Option Nat) : PackState :=
  let all_texts := iter_jsonl_texts lines cutoff_year true true
  if all_texts.isEmpty then initState
  else
    let g := seedFn shuffle_seed
    let shuffled := fisherYates step (all_texts.length - 1) all_texts g
    finalFlush maxShards (packLoop cps rgs maxShards shuffled initState)

/-- A concrete deterministic generator used to instantiate the abstract
`σ` in closed evaluations (all of which shuffle lists of length ≤ 1, so
the choice of generator cannot influence them). -/
def rngStep (g bound : Nat) : Nat × Nat := (g % bound, g * 1103515245 + 12345)

def rngSeed (seed : Nat) : Nat := seed

/-!
## Concrete inputs used by the closed theorems below
-/

/-- Scenario C text from the module's `__main__` block and the spec. -/
def airplaneText : Str := sl "The airplane flew over the city."

/-- A 101-character document that the detector flags at cutoff 1913
(term "hitler": +0.2; year 1939 > 1913: +0.3). -/
def contamText : Str := sl "Hitler invaded Poland in 1939. " ++ List.replicate 70 'x'

/-- A parsed JSONL record holding `contamText` with a non-Gutenberg source. -/
def contamLine : Option InputRecord := some ⟨some contamText, sl "caselaw"⟩

/-- A parsed JSONL record holding a clean 100-character document. -/
def cleanLine : Option InputRecord := some ⟨some (List.replicate 100 'a'), sl "caselaw"⟩

/-- A text on which boilerplate stripping is not idempotent: the first
pass cuts at the priority-first footer marker "*** END OF THIS PROJECT
GUTENBERG", leaving the lower-priority marker "End of Project Gutenberg"
behind, which a second pass then cuts. -/
def residualMarkerText : Str :=
  sl "A End of Project Gutenberg B *** END OF THIS PROJECT GUTENBERG C"

/-!
## Helper lemmas
-/

theorem dropWhile_dropWhile (p : Char → Bool) (l : Str) :
    (l.dropWhile p).dropWhile p = l.dropWhile p := by
  induction l with
  | nil => rfl
  | cons a t ih =>
    by_cases h : p a
    · simp [List.dropWhile_cons, h, ih]
    · simp [List.dropWhile_cons, h]

theorem dropWhile_append_last (p : Char → Bool) (a : Char) (h : p a = false)
    (l : Str) : (l ++ [a]).dropWhile p = l.dropWhile p ++ [a] := by
  induction l with
  | nil => simp [List.dropWhile_cons, h]
  | cons c t ih =>
    by_cases hc : p c
    · simp [List.dropWhile_cons, hc, ih]
    · simp [List.dropWhile_cons, hc]

theorem trimR_cons (a : Char) (h : pyIsSpace a = false) (t : Str) :
    trimR (a :: t) = a :: trimR t := by
  unfold trimR
  rw [List.reverse_cons, dropWhile_append_last _ _ h, List.reverse_append]
  simp

theorem trimR_trimR (s : Str) : trimR (trimR s) = trimR s := by
  unfold trimR
  rw [List.reverse_reverse, dropWhile_dropWhile]

theorem trimL_eq_self_cases (s : Str) (h : trimL s = s) :
    s = [] ∨ ∃ a t, s = a :: t ∧ pyIsSpace a = false := by
  cases s with
  | nil => exact Or.inl rfl
  | cons a t =>
    refine Or.inr ⟨a, t, rfl, ?_⟩
    have := (List.dropWhile_eq_self_iff.mp h) (by simp)
    simpa using this

theorem pyStrip_idem (s : Str) : pyStrip (pyStrip s) = pyStrip s := by
  unfold pyStrip
  have hz : trimL (trimL s) = trimL s := dropWhile_dropWhile _ _
  rcases trimL_eq_self_cases (trimL s) hz with h | ⟨a, t, heq, ha⟩
  · rw [h]; rfl
  · rw [heq, trimR_cons a ha t]
    have h1 : trimL (a :: trimR t) = a :: trimR t := by
      simp [trimL, List.dropWhile_cons, ha]
    rw [h1, trimR_cons a ha, trimR_trimR]

theorem cutHeader_of_no_marker (text : Str) (ms : List Str)
    (h : ∀ m ∈ ms, findSub (upperStr text) (upperStr m) = none) :
    cutHeader text ms = text := by
  induction ms with
  | nil => rfl
  | cons m rest ih =>
    unfold cutHeader
    rw [h m (by simp)]
    exact ih (fun m' hm' => h m' (by simp [hm']))

theorem cutFooter_of_no_marker (text : Str) (ms : List Str)
    (h : ∀ m ∈ ms, findSub (upperStr text) (upperStr m) = none) :
    cutFooter text ms = text := by
  induction ms with
  | nil => rfl
  | cons m rest ih =>
    unfold cutFooter
    rw [h m (by simp)]
    exact ih (fun m' hm' => h m' (by simp [hm']))

theorem containsSub_nil_of_ne_nil (t : Str) (h : t ≠ []) :
    containsSub [] t = false := by
  cases t with
  | nil => exact absurd rfl h
  | cons c cs => rfl

theorem get_all_anachronisms_ne_nil (c : Nat) :
    ∀ t ∈ get_all_anachronisms c, t ≠ [] := by
  intro t ht
  simp only [get_all_anachronisms, List.mem_dedup, List.mem_map,
    List.mem_flatMap, List.mem_filter, decide_eq_true_eq] at ht
  obtain ⟨u, ⟨p, hp, hu, hne⟩, rfl⟩ := ht
  simpa [lowerStr] using hne

theorem termLoop_eq (tl : Str) (terms : List Str) (r m : List Str) (c : ℚ) :
    termLoop tl terms r m c =
      (r ++ (terms.filter (fun t => containsSub tl t)).map termReason,
       m ++ terms.filter (fun t => containsSub tl t),
       (terms.filter (fun t => containsSub tl t)).foldl
         (fun acc _ => qmin 1 (qadd acc (mkRat 2 10))) c) := by
  induction terms generalizing r m c with
  | nil => simp [termLoop]
  | cons t rest ih =>
    by_cases h : containsSub tl t
    · simp [termLoop, h, ih, List.filter_cons]
    · simp [termLoop, h, ih, List.filter_cons]

theorem modernFold_fst (refs : List Str) (r : List Str) (c : ℚ) :
    (refs.foldl modernStep (r, c)).1 = r ++ refs := by
  induction refs generalizing r c with
  | nil => simp
  | cons x xs ih => simp [modernStep, ih]

theorem annotFold_fst (tl5 : Str) (markers : List Str) (r : List Str) (c : ℚ) :
    (markers.foldl (annotStep tl5) (r, c)).1 =
      r ++ (markers.filter (fun mk => containsSub tl5 mk)).map annotReason := by
  induction markers generalizing r c with
  | nil => simp
  | cons x xs ih =>
    by_cases h : containsSub tl5 x
    · simp [annotStep, h, ih, List.filter_cons]
    · simp [annotStep, h, ih, List.filter_cons]

theorem ne_of_head (s1 s2 : Str) (c1 c2 : Char) (h1 : s1.head? = some c1)
    (h2 : s2.head? = some c2) (hne : c1 ≠ c2) : s1 ≠ s2 := by
  intro h
  rw [h, h2] at h1
  exact hne (Option.some.inj h1).symm

theorem termReason_head (t : Str) : (termReason t).head? = some 'A' := rfl

theorem yearReason_head (y : Nat) : (yearReason y).head? = some 'Y' := rfl

theorem annotReason_head (m : Str) : (annotReason m).head? = some 'P' := rfl

theorem count_map_eq_zero {α : Type} (f : α → Str) (l : List α) (s : Str)
    (h : ∀ a, f a ≠ s) : (l.map f).count s = 0 := by
  rw [List.count_eq_zero]
  intro hmem
  obtain ⟨a, _, ha⟩ := List.mem_map.mp hmem
  exact h a ha

theorem modernFold_fst_pair (refs : List Str) (rc : List Str × ℚ) :
    (refs.foldl modernStep rc).1 = rc.1 ++ refs := by
  obtain ⟨r, c⟩ := rc
  exact modernFold_fst refs r c

theorem annotFold_fst_pair (tl5 : Str) (markers : List Str) (rc : List Str × ℚ) :
    (markers.foldl (annotStep tl5) rc).1 =
      rc.1 ++ (markers.filter (fun mk => containsSub tl5 mk)).map annotReason := by
  obtain ⟨r, c⟩ := rc
  exact annotFold_fst tl5 markers r c

/-- The reasons of a verdict always decompose into lexicon-term reasons,
then the modern-reference reasons, then editorial-annotation reasons. -/
theorem check_contamination_reasons_shape (text : Str) (cutoff_year cw : Nat)
    (threshold : ℚ) :
    ∃ (terms markers : List Str),
      (check_contamination text cutoff_year cw threshold).reasons =
        terms.map termReason ++ check_for_modern_references text cutoff_year ++
          markers.map annotReason := by
  refine ⟨(get_all_anachronisms cutoff_year).filter
      (fun t => containsSub (lowerStr text) t),
    if containsSub ((lowerStr text).take 2000) (sl "project gutenberg")
    then introMarkers.filter
      (fun mk => containsSub ((lowerStr text).take 5000) mk)
    else [], ?_⟩
  by_cases hg :
      containsSub ((lowerStr text).take 2000) (sl "project gutenberg") = true
  · simp only [check_contamination, hg, if_true]
    rw [annotFold_fst_pair, modernFold_fst_pair]
    simp [termLoop_eq]
  · simp only [check_contamination, hg, if_false, Bool.false_eq_true]
    rw [modernFold_fst_pair]
    simp [termLoop_eq, hg]

theorem packLoop_written_inv (cps rgs : Nat) (mx : Option Nat)
    (texts : List Str) (st : PackState)
    (h : ∀ s ∈ st.written, cps ≤ s.chars ∧ s.docs.length % rgs = 0) :
    ∀ s ∈ (packLoop cps rgs mx texts st).written,
      cps ≤ s.chars ∧ s.docs.length % rgs = 0 := by
  induction texts generalizing st with
  | nil => simpa [packLoop] using h
  | cons t rest ih =>
    by_cases hstop : stopPacking mx st.shardIndex
    · simpa [packLoop, hstop] using h
    · by_cases hseal : cps ≤ st.shardChars + t.length ∧
          (st.shardDocs ++ [t]).length % rgs = 0
      · rw [packLoop]
        simp only [hstop, Bool.false_eq_true, if_false, hseal, if_true]
        apply ih
        intro s hs
        rcases List.mem_append.mp hs with hold | hnew
        · exact h s hold
        · simp only [List.mem_singleton] at hnew
          subst hnew
          exact hseal
      · rw [packLoop]
        simp only [hstop, Bool.false_eq_true, if_false, hseal, if_false]
        exact ih _ h

theorem packLoop_count_inv (cps rgs m : Nat) (hm : 0 < m)
    (texts : List Str) (st : PackState)
    (hlen : st.written.length = st.shardIndex) (hidx : st.shardIndex ≤ m) :
    (packLoop cps rgs (some m) texts st).written.length =
      (packLoop cps rgs (some m) texts st).shardIndex ∧
    (packLoop cps rgs (some m) texts st).shardIndex ≤ m := by
  induction texts generalizing st with
  | nil => exact ⟨by simpa [packLoop] using hlen, by simpa [packLoop] using hidx⟩
  | cons t rest ih =>
    by_cases hstop : stopPacking (some m) st.shardIndex
    · rw [packLoop]
      simp only [hstop, if_true]
      exact ⟨hlen, hidx⟩
    · have hlt : st.shardIndex < m := by
        simp only [stopPacking, Bool.and_eq_true, Bool.not_eq_true',
          beq_eq_false_iff_ne, ne_eq, decide_eq_true_eq, not_and, not_le] at hstop
        exact hstop (Nat.pos_iff_ne_zero.mp hm)
      by_cases hseal : cps ≤ st.shardChars + t.length ∧
          (st.shardDocs ++ [t]).length % rgs = 0
      · rw [packLoop]
        simp only [hstop, Bool.false_eq_true, if_false, hseal, if_true]
        exact ih _ (by simp [hlen]) hlt
      · rw [packLoop]
        simp only [hstop, Bool.false_eq_true, if_false, hseal, if_false]
        exact ih _ hlen hidx

/-!
## Claim theorems
-/

/-- C1: with default context window and threshold, the code returns
`is_contaminated = False` for "The airplane flew over the city." at BOTH
cutoffs 1900 and 1913.  At cutoff 1900 the sole lexicon hit "airplane"
yields confidence 0.2, which is below the 0.3 threshold, so the claim's
(and the module's own `__main__` comment's) expected contaminated verdict
at cutoff 1900 does not occur; the cutoff-1913 half of the claim holds. -/
theorem check_contamination_airplane_scenario :
    (check_contamination airplaneText 1900 100 (mkRat 3 10)).is_contaminated = false ∧
    (check_contamination airplaneText 1900 100 (mkRat 3 10)).confidence = mkRat 1 5 ∧
    (check_contamination airplaneText 1900 100 (mkRat 3 10)).matched_terms =
      [sl "airplane"] ∧
    (check_contamination airplaneText 1913 100 (mkRat 3 10)).is_contaminated = false := by
  decide

/-- C2: a run whose single input document is discarded as contaminated
still reports `rejected_contamination = 0`: the counter is initialized and
serialized but never incremented anywhere in `package_shards` or
`iter_jsonl_texts`. -/
theorem package_shards_rejected_contamination_not_counted :
    (check_contamination contamText 1913 100 (mkRat 3 10)).is_contaminated = true ∧
    iter_jsonl_texts [contamLine] 1913 true true = [] ∧
    (package_shards rngStep rngSeed 0 [contamLine] 1913 50 1 42
      none).stats.rejected_contamination = 0 := by
  decide

/-- C5: for a fixed input multiset (list of parsed lines) and a fixed
`shuffle_seed`, two runs of `package_shards` produce identical outputs —
written shards, their order and contents, and statistics — regardless of
the ambient generator state each run starts from, because
`random.seed(shuffle_seed)` replaces that state before the shuffle. -/
theorem package_shards_two_run_deterministic {σ : Type}
    (step : σ → Nat → Nat × σ) (seedFn : Nat → σ) (g1 g2 : σ)
    (lines : List (Option InputRecord)) (cutoff_year cps rgs seed : Nat)
    (maxShards : Option Nat) :
    package_shards step seedFn g1 lines cutoff_year cps rgs seed maxShards =
    package_shards step seedFn g2 lines cutoff_year cps rgs seed maxShards := rfl

/-- C4: in every execution of the packing stage, every shard sealed
inside the accumulation loop (all written shards except the possible
final flush, which is appended only afterwards by `finalFlush`) has at
least `chars_per_shard` characters and a document count that is an exact
multiple of `row_group_size`. -/
theorem packLoop_sealed_shard_invariant (cps rgs : Nat)
    (maxShards : Option Nat) (texts : List Str) :
    ∀ s ∈ (packLoop cps rgs maxShards texts initState).written,
      cps ≤ s.chars ∧ s.docs.length % rgs = 0 :=
  packLoop_written_inv cps rgs maxShards texts initState (by simp [initState])

/-- C4 witness: a concrete loop execution that seals one shard. -/
theorem packLoop_sealed_shard_invariant_witness :
    50 ≤ (⟨0, [List.replicate 100 'a'], 100⟩ : ShardFile).chars ∧
    (⟨0, [List.replicate 100 'a'], 100⟩ : ShardFile).docs.length % 1 = 0 :=
  packLoop_sealed_shard_invariant 50 1 none [List.replicate 100 'a']
    ⟨0, [List.replicate 100 'a'], 100⟩ (by decide)

/-- C9 counterexample: with `max_shards = 0` — an integer — the loop's
guard `if max_shards and shard_index >= max_shards` is never taken
(Python truthiness of 0), so a run over one clean 100-character document
with `chars_per_shard = 50`, `row_group_size = 1` writes 1 shard,
exceeding `max_shards = 0`. -/
theorem package_shards_max_shards_zero_violated :
    (package_shards rngStep rngSeed 0 [cleanLine] 1913 50 1 42
      (some 0)).written.length = 1 := by
  decide

/-- C9 (amended): whenever `max_shards` is a positive integer `m`,
`package_shards` writes at most `m` shard files. -/
theorem package_shards_max_shards_bound {σ : Type}
    (step : σ → Nat → Nat × σ) (seedFn : Nat → σ) (g : σ)
    (lines : List (Option InputRecord)) (cutoff_year cps rgs seed m : Nat)
    (hm : 0 < m) :
    (package_shards step seedFn g lines cutoff_year cps rgs seed
      (some m)).written.length ≤ m := by
  unfold package_shards
  by_cases hempty : (iter_jsonl_texts lines cutoff_year true true).isEmpty
  · simp [hempty, initState]
  · simp only [hempty, Bool.false_eq_true, if_false]
    set texts := fisherYates step
      ((iter_jsonl_texts lines cutoff_year true true).length - 1)
      (iter_jsonl_texts lines cutoff_year true true) (seedFn seed) with htexts
    obtain ⟨hlen, hidx⟩ := packLoop_count_inv cps rgs m hm texts initState
      (by simp [initState]) (by simp [initState])
    unfold finalFlush
    by_cases hflush : !(packLoop cps rgs (some m) texts initState).shardDocs.isEmpty &&
        flushAllowed (some m) (packLoop cps rgs (some m) texts initState).shardIndex
    · simp only [hflush, if_true, List.length_append, List.length_singleton]
      have : (packLoop cps rgs (some m) texts initState).shardIndex < m := by
        simp only [Bool.and_eq_true, flushAllowed, decide_eq_true_eq] at hflush
        exact hflush.2
      omega
    · simp only [hflush, Bool.false_eq_true, if_false]
      omega

/-- C9 witness for the amended bound, at `max_shards = 1`. -/
theorem package_shards_max_shards_bound_witness :
    0 < 1 ∧
    (package_shards rngStep rngSeed 0 [cleanLine] 1913 50 1 42
      (some 1)).written.length ≤ 1 :=
  ⟨by decide,
   package_shards_max_shards_bound rngStep rngSeed 0 [cleanLine] 1913 50 1 42 1
     (by decide)⟩

/-- C10: every text yielded by `iter_jsonl_texts` is produced (by
`processLine`, the body of the `for line in f` loop) from a parsed record
of the input whose raw `text` field is present and at least 100
characters long: records with a missing, empty or short text are skipped
before header cleaning and the contamination check run, so no yielded
document stems from one. -/
theorem iter_jsonl_texts_min_raw_length (lines : List (Option InputRecord))
    (cutoff_year : Nat) (clean_headers check_contam : Bool) (out : Str)
    (hout : out ∈ iter_jsonl_texts lines cutoff_year clean_headers check_contam) :
    ∃ record, some record ∈ lines ∧
      processLine cutoff_year clean_headers check_contam (some record) = some out ∧
      ∃ raw, record.text = some raw ∧ 100 ≤ raw.length := by
  obtain ⟨l, hl, hf⟩ := List.mem_filterMap.mp hout
  cases l with
  | none => simp [processLine] at hf
  | some record =>
    refine ⟨record, hl, hf, ?_⟩
    cases htext : record.text with
    | none =>
      exfalso
      simp only [processLine, htext, Option.getD_none] at hf
      simp at hf
    | some raw =>
      refine ⟨raw, rfl, ?_⟩
      simp only [processLine, htext, Option.getD_some] at hf
      by_cases hshort : raw = [] ∨ raw.length < 100
      · simp [hshort] at hf
      · push_neg at hshort
        omega

/-- C10 witness: a run over one 100-character record yields exactly that
record's processed document. -/
theorem iter_jsonl_texts_min_raw_length_witness :
    ∃ record, some record ∈ [cleanLine] ∧
      processLine 1913 true true (some record) = some (List.replicate 100 'a') ∧
      ∃ raw, record.text = some raw ∧ 100 ≤ raw.length :=
  iter_jsonl_texts_min_raw_length [cleanLine] 1913 true true
    (List.replicate 100 'a') (by decide)

/-- C7: the set of anachronistic terms is antitone in the cutoff year:
for cutoffs `c1 < c2`, every term anachronistic at `c2` (its entry year
satisfies `year >= c2 > c1`) is anachronistic at `c1`. -/
theorem get_all_anachronisms_antitone (c1 c2 : Nat) (hlt : c1 < c2) :
    ∀ term ∈ get_all_anachronisms c2, term ∈ get_all_anachronisms c1 := by
  intro term ht
  simp only [get_all_anachronisms, List.mem_dedup, List.mem_map,
    List.mem_flatMap, List.mem_filter, decide_eq_true_eq] at ht ⊢
  obtain ⟨u, ⟨p, ⟨hp, hc2⟩, hu⟩, rfl⟩ := ht
  exact ⟨u, ⟨p, ⟨hp, le_trans (le_of_lt hlt) hc2⟩, hu⟩, rfl⟩

/-- C7 witness: "hitler" is anachronistic at cutoff 1913, hence also at
the stricter cutoff 1900. -/
theorem get_all_anachronisms_antitone_witness :
    sl "hitler" ∈ get_all_anachronisms 1900 :=
  get_all_anachronisms_antitone 1900 1913 (by decide) (sl "hitler") (by decide)

/-- C6 counterexample: stripping `residualMarkerText` once cuts at the
priority-first footer marker but leaves a lower-priority footer marker in
the output, so a second application strips further: the function is not
idempotent on every string. -/
theorem clean_gutenberg_headers_not_idempotent :
    clean_gutenberg_headers (clean_gutenberg_headers residualMarkerText) ≠
      clean_gutenberg_headers residualMarkerText := by
  decide

/-- C6 (amended): re-applying `clean_gutenberg_headers` is a no-op on
every text whose once-cleaned output contains no header-end and no
footer-start marker (case-insensitively); the counterexample shows the
unconditional statement fails exactly when a marker survives the first
pass. -/
theorem clean_gutenberg_headers_idempotent_of_no_marker (t : Str)
    (h : ∀ m ∈ headerEndMarkers ++ footerStartMarkers,
        findSub (upperStr (clean_gutenberg_headers t)) (upperStr m) = none) :
    clean_gutenberg_headers (clean_gutenberg_headers t) =
      clean_gutenberg_headers t := by
  have hh : ∀ m ∈ headerEndMarkers,
      findSub (upperStr (clean_gutenberg_headers t)) (upperStr m) = none :=
    fun m hm => h m (by simp [hm])
  have hf : ∀ m ∈ footerStartMarkers,
      findSub (upperStr (clean_gutenberg_headers t)) (upperStr m) = none :=
    fun m hm => h m (by simp [hm])
  show pyStrip (cutFooter (cutHeader (clean_gutenberg_headers t)
    headerEndMarkers) footerStartMarkers) = clean_gutenberg_headers t
  rw [cutHeader_of_no_marker _ _ hh, cutFooter_of_no_marker _ _ hf]
  show pyStrip (pyStrip (cutFooter (cutHeader t headerEndMarkers)
    footerStartMarkers)) = _
  exact pyStrip_idem _

/-- C6 witness: a marker-free text, unchanged by a second pass. -/
theorem clean_gutenberg_headers_idempotent_witness :
    clean_gutenberg_headers (clean_gutenberg_headers (sl "hello world")) =
      clean_gutenberg_headers (sl "hello world") :=
  clean_gutenberg_headers_idempotent_of_no_marker (sl "hello world") (by decide)

/-- C8 counterexample: at threshold 0 the empty string is flagged, since
the final verdict is `confidence >= threshold` and `0 >= 0`; the claim's
`is_contaminated = False` for every threshold fails at threshold 0. -/
theorem check_contamination_empty_threshold_zero :
    (check_contamination [] 1913 100 0).is_contaminated = true := by
  decide

/-- C8 (amended): on the empty string the detector returns confidence 0,
no reasons and no matched terms for every cutoff, context window and
threshold, and `is_contaminated = False` for every positive threshold
(the detector is a total function, so it never raises). -/
theorem check_contamination_empty_clean (cutoff_year context_window : Nat)
    (threshold : ℚ) (h : 0 < threshold) :
    check_contamination [] cutoff_year context_window threshold =
      ⟨false, 0, [], []⟩ := by
  have hfilter : (get_all_anachronisms cutoff_year).filter
      (fun t => containsSub [] t) = [] := by
    rw [List.filter_eq_nil_iff]
    intro t ht
    simp [containsSub_nil_of_ne_nil t (get_all_anachronisms_ne_nil _ t ht)]
  have hlower : lowerStr [] = [] := rfl
  have hmodern : check_for_modern_references [] cutoff_year = [] := rfl
  have hpg : containsSub (List.take 2000 ([] : Str)) (sl "project gutenberg") =
      false := by decide
  have hdec : decide (threshold ≤ (0 : ℚ)) = false :=
    decide_eq_false (not_le.mpr h)
  simp only [check_contamination, hlower, termLoop_eq, hfilter, hmodern,
    List.map_nil, List.nil_append, List.foldl_nil, hpg, Bool.false_eq_true,
    if_false, hdec]

/-- C8 witness for the amended statement, at the default threshold 0.3. -/
theorem check_contamination_empty_clean_witness :
    0 < mkRat 3 10 ∧
    check_contamination [] 1913 100 (mkRat 3 10) = ⟨false, 0, [], []⟩ :=
  ⟨by decide, check_contamination_empty_clean 1913 100 (mkRat 3 10) (by decide)⟩

/-- C3 counterexample: a text with two post-cutoff year occurrences gets
two year-reference reasons and two +0.3 increments (confidence 0.6), so
the year category does not contribute at most one reason/increment. -/
theorem year_category_counts_per_occurrence :
    (check_contamination (sl "In 1950 and 1951.") 1913 100 (mkRat 3 10)).reasons =
      [yearReason 1950, yearReason 1951] ∧
    (check_contamination (sl "In 1950 and 1951.") 1913 100 (mkRat 3 10)).confidence =
      mkRat 3 5 := by
  decide

theorem modern_refs_counts (text : Str) (cutoff_year : Nat) :
    (check_for_modern_references text cutoff_year).count dateReasonStr ≤ 1 ∧
    (check_for_modern_references text cutoff_year).count urlReasonStr ≤ 1 ∧
    (check_for_modern_references text cutoff_year).count currencyReasonStr ≤ 1 := by
  unfold check_for_modern_references
  refine ⟨?_, ?_, ?_⟩
  · simp only [List.count_append]
    have h1 : (((yearScanAux none text).filter
        (fun year => cutoff_year < year)).map yearReason).count dateReasonStr = 0 :=
      count_map_eq_zero _ _ _
        (fun y => ne_of_head _ _ 'Y' 'M' (yearReason_head y) rfl (by decide))
    have h2 : (if dateScan none text then [dateReasonStr] else []).count
        dateReasonStr ≤ 1 := by split <;> decide
    have h3 : (if urlFound (lowerStr text) then [urlReasonStr] else []).count
        dateReasonStr = 0 := by split <;> decide
    have h4 : (if currencyScan text then [currencyReasonStr] else []).count
        dateReasonStr = 0 := by split <;> decide
    omega
  · simp only [List.count_append]
    have h1 : (((yearScanAux none text).filter
        (fun year => cutoff_year < year)).map yearReason).count urlReasonStr = 0 :=
      count_map_eq_zero _ _ _
        (fun y => ne_of_head _ _ 'Y' 'U' (yearReason_head y) rfl (by decide))
    have h2 : (if dateScan none text then [dateReasonStr] else []).count
        urlReasonStr = 0 := by split <;> decide
    have h3 : (if urlFound (lowerStr text) then [urlReasonStr] else []).count
        urlReasonStr ≤ 1 := by split <;> decide
    have h4 : (if currencyScan text then [currencyReasonStr] else []).count
        urlReasonStr = 0 := by split <;> decide
    omega
  · simp only [List.count_append]
    have h1 : (((yearScanAux none text).filter
        (fun year => cutoff_year < year)).map yearReason).count currencyReasonStr = 0 :=
      count_map_eq_zero _ _ _
        (fun y => ne_of_head _ _ 'Y' 'M' (yearReason_head y) rfl (by decide))
    have h2 : (if dateScan none text then [dateReasonStr] else []).count
        currencyReasonStr = 0 := by split <;> decide
    have h3 : (if urlFound (lowerStr text) then [urlReasonStr] else []).count
        currencyReasonStr = 0 := by split <;> decide
    have h4 : (if currencyScan text then [currencyReasonStr] else []).count
        currencyReasonStr ≤ 1 := by split <;> decide
    omega

/-- C3 (amended): in every verdict of `check_contamination`, the
slash-date, URL/email and currency categories each contribute at most one
reason string (hence at most one +0.3 increment), for every text, cutoff,
context window and threshold; the year category instead contributes one
reason and one +0.3 increment per post-cutoff year occurrence, as the
counterexample shows. -/
theorem modern_pattern_categories_at_most_one (text : Str)
    (cutoff_year context_window : Nat) (threshold : ℚ) :
    (check_contamination text cutoff_year context_window threshold).reasons.count
        dateReasonStr ≤ 1 ∧
    (check_contamination text cutoff_year context_window threshold).reasons.count
        urlReasonStr ≤ 1 ∧
    (check_contamination text cutoff_year context_window threshold).reasons.count
        currencyReasonStr ≤ 1 := by
  obtain ⟨terms, markers, hr⟩ :=
    check_contamination_reasons_shape text cutoff_year context_window threshold
  rw [hr]
  obtain ⟨hd, hu, hc⟩ := modern_refs_counts text cutoff_year
  have htd : (terms.map termReason).count dateReasonStr = 0 :=
    count_map_eq_zero _ _ _
      (fun a => ne_of_head _ _ 'A' 'M' (termReason_head a) rfl (by decide))
  have htu : (terms.map termReason).count urlReasonStr = 0 :=
    count_map_eq_zero _ _ _
      (fun a => ne_of_head _ _ 'A' 'U' (termReason_head a) rfl (by decide))
  have htc : (terms.map termReason).count currencyReasonStr = 0 :=
    count_map_eq_zero _ _ _
      (fun a => ne_of_head _ _ 'A' 'M' (termReason_head a) rfl (by decide))
  have had : (markers.map annotReason).count dateReasonStr = 0 :=
    count_map_eq_zero _ _ _
      (fun a => ne_of_head _ _ 'P' 'M' (annotReason_head a) rfl (by decide))
  have hau : (markers.map annotReason).count urlReasonStr = 0 :=
    count_map_eq_zero _ _ _
      (fun a => ne_of_head _ _ 'P' 'U' (annotReason_head a) rfl (by decide))
  have hac : (markers.map annotReason).count currencyReasonStr = 0 :=
    count_map_eq_zero _ _ _
      (fun a => ne_of_head _ _ 'P' 'M' (annotReason_head a) rfl (by decide))
  simp only [List.count_append, htd, htu, htc, had, hau, hac]
  omega

/-!
## Sanity checks of the embedding (concrete evaluations)
-/

example : lowerStr (sl "AbC") = sl "abc" := by decide
example : upperStr (sl "aZ9") = sl "AZ9" := by decide
example : findSub (sl "hello") (sl "ll") = some 2 := by decide
example : containsSub (sl "hello") (sl "xyz") = false := by decide
example : findCharFrom (sl "ab\ncd") '\n' 1 = some 2 := by decide
example : pyStrip (sl "  a b \n") = sl "a b" := by decide
example : natToStr 1939 = sl "1939" := by decide
example : qmin 1 (qadd (mkRat 2 10) (mkRat 3 10)) = mkRat 1 2 := by decide
example : containsSub (sl "darwin's origin") (sl "win's") = true := by decide
example : sl "airplane" ∈ get_all_anachronisms 1900 := by decide
example : sl "airplane" ∉ get_all_anachronisms 1913 := by decide
example : sl "" ∉ get_all_anachronisms 1850 := by decide
example : yearScanAux none (sl "in 1939 and 2001.") = [1939, 2001] := by decide
example : yearScanAux none (sl "x1939 1800 19395") = [] := by decide
example : dateScan none (sl "on 12/25/1995 we") = true := by decide
example : dateScan none (sl "on 123/25/1995") = false := by decide
example : urlFound (sl "see www.example.net") = true := by decide
example : urlFound (sl "write to a@b.co now") = true := by decide
example : urlFound (sl "plain old text") = false := by decide
example : currencyScan (sl "cost $1,234,567 then") = true := by decide
example : currencyScan (sl "cost $1234,567") = false := by decide
example : check_for_modern_references (sl "In 1950 and 1951.") 1913 =
    [yearReason 1950, yearReason 1951] := by decide
example :
    (check_contamination (sl "The king rode his horse to the castle in 1812.")
      1913 100 (mkRat 3 10)).is_contaminated = false := by decide
example :
    (check_contamination (sl "Hitler invaded Poland in 1939.")
      1913 100 (mkRat 3 10)).is_contaminated = true := by decide
example :
    (check_contamination (sl "Hitler invaded Poland in 1939.")
      1913 100 (mkRat 3 10)).matched_terms = [sl "hitler"] := by decide
example :
    (check_contamination (sl "The airplane flew over the city.")
      1900 100 (mkRat 3 10)).confidence = mkRat 1 5 := by decide
example :
    (check_contamination (sl "Visit our website at www.example.com for more info.")
      1913 100 (mkRat 3 10)).is_contaminated = true := by decide
example :
    clean_gutenberg_headers
      (sl "junk\n*** START OF THIS PROJECT GUTENBERG EBOOK X ***\nbody\n*** END OF THIS PROJECT GUTENBERG EBOOK X ***\nmore") =
    sl "body" := by decide
example : clean_gutenberg_headers (sl "  plain text  ") = sl "plain text" := by decide
